import Mathlib

/-!
# Verification of the bringin-checkout session-tracking and polling core

Shallow embedding of the session store (`bringin-sessions.ts`), the payment
provider adapter (`bringin-provider.ts`) and the verification handler
(`verify-status` handler) of the bringin-checkout repository.

Modelling conventions:
* Timestamps (`Date` values, `Date.now()`) are integers counting milliseconds.
* The two process-wide `Map`s are modelled as association lists whose update
  operation replaces in place, mirroring `Map.set` / `Map.delete` semantics.
* Each handler invocation reads the clock once (`now`); the external world
  (HTTP fetch outcome, downstream-notification outcome) is passed in as an
  explicit environment, and the handler is a function from store to
  result × store.
* JavaScript truthiness on optional strings (empty string is falsy) is made
  explicit where the source relies on it.
-/

namespace Bringin

/-- Tagged result type mirroring `Result<T>` from `types.ts`:
either `{ data }` or `{ error: { code, message } }`. -/
inductive Result (α : Type) where
  | ok (data : α)
  | err (code : String) (message : String)
deriving Repr, DecidableEq

/-- True exactly on the failure branch of a `Result`. -/
def Result.isErr {α : Type} : Result α → Bool
  | .ok _ => false
  | .err _ _ => true

/-- Session status enumeration: `'pending' | 'paid' | 'expired'`. -/
inductive SessionStatus where
  | pending
  | paid
  | expired
deriving Repr, DecidableEq

/-- Association-list lookup, mirroring `Map.get`. -/
def lookupKey {α : Type} (k : String) : List (String × α) → Option α
  | [] => none
  | (k', v) :: rest => if k' = k then some v else lookupKey k rest

/-- Association-list insertion, mirroring `Map.set`: replaces the entry in
place when the key is present, appends otherwise. -/
def insertKey {α : Type} (k : String) (v : α) : List (String × α) → List (String × α)
  | [] => [(k, v)]
  | (k', v') :: rest => if k' = k then (k, v) :: rest else (k', v') :: insertKey k v rest

/-- Association-list removal, mirroring `Map.delete` (removes the first entry
with the key; with unique keys, the only one). -/
def eraseKey {α : Type} (k : String) : List (String × α) → List (String × α)
  | [] => []
  | (k', v') :: rest => if k' = k then rest else (k', v') :: eraseKey k rest

theorem lookupKey_insertKey_self {α : Type} (k : String) (v : α) (l : List (String × α)) :
    lookupKey k (insertKey k v l) = some v := by
  induction l with
  | nil => simp [insertKey, lookupKey]
  | cons e rest ih =>
    by_cases h : e.1 = k
    · simp [insertKey, lookupKey, h]
    · simp [insertKey, lookupKey, h, ih]

theorem lookupKey_insertKey_ne {α : Type} (k k' : String) (v : α) (l : List (String × α))
    (h : k' ≠ k) : lookupKey k' (insertKey k v l) = lookupKey k' l := by
  induction l with
  | nil => simp [insertKey, lookupKey, Ne.symm h]
  | cons e rest ih =>
    by_cases he : e.1 = k
    · simp [insertKey, lookupKey, he, Ne.symm h]
    · by_cases he' : e.1 = k'
      · simp [insertKey, lookupKey, he, he', h]
      · simp [insertKey, lookupKey, he, he', ih]

theorem lookupKey_eraseKey_ne {α : Type} (k k' : String) (l : List (String × α))
    (h : k' ≠ k) : lookupKey k' (eraseKey k l) = lookupKey k' l := by
  induction l with
  | nil => simp [eraseKey, lookupKey]
  | cons e rest ih =>
    by_cases he : e.1 = k
    · simp [eraseKey, lookupKey, he, Ne.symm h]
    · by_cases he' : e.1 = k'
      · simp [eraseKey, lookupKey, he, he', h]
      · simp [eraseKey, lookupKey, he, he', ih]

theorem lookupKey_eq_none {α : Type} (k : String) (l : List (String × α))
    (h : k ∉ l.map Prod.fst) : lookupKey k l = none := by
  induction l with
  | nil => rfl
  | cons e rest ih =>
    simp only [List.map_cons, List.mem_cons, not_or] at h
    simp [lookupKey, Ne.symm h.1, ih h.2]

/-- Under unique keys, erasing a key makes its lookup fail. -/
theorem lookupKey_eraseKey_self {α : Type} (k : String) (l : List (String × α))
    (hnd : (l.map Prod.fst).Nodup) : lookupKey k (eraseKey k l) = none := by
  induction l with
  | nil => rfl
  | cons e rest ih =>
    simp only [List.map_cons, List.nodup_cons] at hnd
    by_cases he : e.1 = k
    · simp only [eraseKey, if_pos he]
      exact lookupKey_eq_none k rest (fun hc => hnd.1 (he ▸ hc))
    · simp [eraseKey, lookupKey, he, ih hnd.2]

theorem mem_eraseKey {α : Type} (k : String) (l : List (String × α)) (x : String × α)
    (hx : x ∈ eraseKey k l) : x ∈ l := by
  induction l with
  | nil => simp [eraseKey] at hx
  | cons e rest ih =>
    simp only [eraseKey] at hx
    by_cases he : e.1 = k
    · simp only [if_pos he] at hx
      exact List.mem_cons_of_mem _ hx
    · simp only [if_neg he, List.mem_cons] at hx
      rcases hx with hx | hx

      · exact hx ▸ List.mem_cons_self _ _
      · exact List.mem_cons_of_mem _ (ih hx)

theorem eraseKey_nodup {α : Type} (k : String) (l : List (String × α))
    (hnd : (l.map Prod.fst).Nodup) : ((eraseKey k l).map Prod.fst).Nodup := by
  induction l with
  | nil => simp [eraseKey]
  | cons e rest ih =>
    simp only [List.map_cons, List.nodup_cons] at hnd
    by_cases he : e.1 = k
    · simpa [eraseKey, he] using hnd.2
    · simp only [eraseKey, if_neg he, List.map_cons, List.nodup_cons]
      refine ⟨?_, ih hnd.2⟩
      intro hmem
      rcases List.mem_map.mp hmem with ⟨x, hx, hx1⟩
      exact hnd.1 (List.mem_map.mpr ⟨x, mem_eraseKey k rest x hx, hx1⟩)

/-!
## Session store (`bringin-sessions.ts`)
-/

/-- The `BringinCheckoutSession` record. `Date` fields are milliseconds since the
epoch; optional fields are `Option`. `eurAmount` is a JS number that may be
fractional, modelled as a rational. -/
structure Session where
  checkoutId : String
  lnAddress : String
  eurAmount : Rat
  sats : Int
  msats : Int
  bolt11 : String
  verifyUrl : String
  paymentHash : Option String
  createdAt : Int
  expiresAt : Int
  status : SessionStatus
  paidAt : Option Int
  lastCheckedAt : Option Int
deriving Repr, DecidableEq

/-- The two process-wide maps owned by the session store:
`sessions : Map<string, BringinCheckoutSession>` and
`mockPaidTimestamps : Map<string, Date>`. -/
structure Store where
  sessions : List (String × Session)
  mockPaidTimestamps : List (String × Int)
deriving Repr, DecidableEq

/-- The argument of `createSession`:
`Omit<BringinCheckoutSession, 'status' | 'createdAt'>` (the optional
`paidAt` / `lastCheckedAt` fields remain present in the `Omit` type). -/
structure NewSessionFields where
  checkoutId : String
  lnAddress : String
  eurAmount : Rat
  sats : Int
  msats : Int
  bolt11 : String
  verifyUrl : String
  paymentHash : Option String
  expiresAt : Int
  paidAt : Option Int
  lastCheckedAt : Option Int
deriving Repr, DecidableEq

/-- Source `createSession`: spreads the supplied fields and forces
`status: 'pending'`, `createdAt: new Date()`. `Map.set` semantics: last write
wins. -/
def createSession (f : NewSessionFields) (now : Int) (st : Store) : Store :=
  let session : Session :=
    { checkoutId := f.checkoutId
      lnAddress := f.lnAddress
      eurAmount := f.eurAmount
      sats := f.sats
      msats := f.msats
      bolt11 := f.bolt11
      verifyUrl := f.verifyUrl
      paymentHash := f.paymentHash
      createdAt := now
      expiresAt := f.expiresAt
      status := .pending
      paidAt := f.paidAt
      lastCheckedAt := f.lastCheckedAt }
  { st with sessions := insertKey f.checkoutId session st.sessions }

/-- Source `getSession`: `sessions.get(checkoutId)`. -/
def getSession (checkoutId : String) (st : Store) : Option Session :=
  lookupKey checkoutId st.sessions

/-- Source `updateSessionStatus`: no-op when the session is absent; otherwise sets
`status`, stamps `lastCheckedAt`, and sets `paidAt` only when provided
(a `Date` argument is always truthy in JS). -/
def updateSessionStatus (checkoutId : String) (status : SessionStatus)
    (paidAt : Option Int) (now : Int) (st : Store) : Store :=
  match lookupKey checkoutId st.sessions with
  | none => st
  | some session =>
    let session' : Session :=
      { session with
        status := status
        lastCheckedAt := some now
        paidAt := match paidAt with
          | some p => some p
          | none => session.paidAt }
    { st with sessions := insertKey checkoutId session' st.sessions }

/-- Source `deleteSession`: removes the session and its mock marker. -/
def deleteSession (checkoutId : String) (st : Store) : Store :=
  { sessions := eraseKey checkoutId st.sessions
    mockPaidTimestamps := eraseKey checkoutId st.mockPaidTimestamps }

/-- Source `clearAllSessions`: clears both maps. -/
def clearAllSessions (_st : Store) : Store :=
  { sessions := [], mockPaidTimestamps := [] }

/-- Source `isSessionExpired`: `new Date() > session.expiresAt`. -/
def isSessionExpired (now : Int) (session : Session) : Bool :=
  decide (session.expiresAt < now)

/-- Source `shouldMockPaid`: returns true at once when a mock marker exists;
otherwise marks and returns true when `Date.now() - createdAt.getTime()`
exceeds 12 000 ms; otherwise false. -/
def shouldMockPaid (checkoutId : String) (createdAt : Int) (now : Int) (st : Store) :
    Bool × Store :=
  match lookupKey checkoutId st.mockPaidTimestamps with
  | some _ => (true, st)
  | none =>
    if now - createdAt > 12000 then
      (true, { st with mockPaidTimestamps := insertKey checkoutId now st.mockPaidTimestamps })
    else
      (false, st)

/-- The deletion condition of the cleanup sweep:
`session.status === 'expired' && (now - session.expiresAt) > 3600_000`. -/
def staleExpired (now : Int) (session : Session) : Bool :=
  session.status == .expired && decide (now - session.expiresAt > 3600000)

/-- The `for (const [checkoutId, session] of sessions.entries())` loop of
`cleanupExpiredSessions`, folded over a snapshot of the entries (each
iteration deletes at most its own entry, so snapshot iteration coincides with
live iteration). -/
def cleanupGo (now : Int) : List (String × Session) → Store → Nat × Store
  | [], st => (0, st)
  | (checkoutId, session) :: rest, st =>
    if staleExpired now session then
      let st' : Store :=
        { sessions := eraseKey checkoutId st.sessions
          mockPaidTimestamps := eraseKey checkoutId st.mockPaidTimestamps }
      let r := cleanupGo now rest st'
      (r.1 + 1, r.2)
    else
      cleanupGo now rest st

/-- Source `cleanupExpiredSessions`: deletes every session whose status is
`'expired'` and whose expiry lies more than one hour in the past, clears the
matching mock markers, and returns the count deleted. -/
def cleanupExpiredSessions (now : Int) (st : Store) : Nat × Store :=
  cleanupGo now st.sessions st

/-!
## Payment provider adapter (`bringin-provider.ts`)
-/

/-- JavaScript `s.split(sep)` for a one-character separator, on character
lists. `"".split('@') = [""]`, `"a@@b".split('@') = ["a","","b"]`. -/
def splitOnChar (c : Char) : List Char → List (List Char)
  | [] => [[]]
  | x :: xs =>
    if x = c then
      [] :: splitOnChar c xs
    else
      match splitOnChar c xs with
      | [] => [[x]]
      | h :: t => (x :: h) :: t

/-- JS array indexing used in template literals: an out-of-range index is
`undefined`, which a template literal renders as the string "undefined". -/
def jsIndexStr (parts : List (List Char)) (i : Nat) : String :=
  match parts.get? i with
  | some cs => String.mk cs
  | none => "undefined"

/-- Source `resolveLightningAddress`: splits `user@domain` on `'@'`, requires exactly
two non-empty parts, and produces the well-known discovery URL. -/
def resolveLightningAddress (lnAddress : String) : Result String :=
  let parts := splitOnChar '@' lnAddress.data
  if parts.length ≠ 2 then
    .err "invalid_ln_address" ("Invalid Lightning Address format: " ++ lnAddress)
  else
    let user : List Char := parts.getD 0 []
    let domain : List Char := parts.getD 1 []
    if user.isEmpty || domain.isEmpty then
      .err "invalid_ln_address" "Lightning Address must be in format user@domain"
    else
      .ok ("https://" ++ String.mk domain ++ "/.well-known/lnurlp/" ++ String.mk user)

/-- A parsed URL, standing for the result of `new URL(callback)`: scheme,
host, absolute path, and the search parameters as an ordered list.
Percent-encoding is not modelled. -/
structure Url where
  scheme : String
  host : String
  path : String
  query : List (String × String)
deriving Repr, DecidableEq

/-- Modelling `URLSearchParams.set`: overwrites the first entry with the name (dropping
later duplicates), or appends when absent. -/
def setParam : List (String × String) → String → String → List (String × String)
  | [], name, value => [(name, value)]
  | (n, v) :: rest, name, value =>
    if n = name then
      (n, value) :: rest.filter (fun p => p.1 != name)
    else
      (n, v) :: setParam rest name value

/-- Serialization of the query part of a URL. -/
def queryString : List (String × String) → String
  | [] => ""
  | ps => "?" ++ String.intercalate "&" (ps.map (fun p => p.1 ++ "=" ++ p.2))

/-- Modelling `URL.toString()` over the modelled fields. -/
def urlToString (u : Url) : String :=
  u.scheme ++ "://" ++ u.host ++ u.path ++ queryString u.query

/-- Predicate `charsStart pat s`: `pat` is a prefix of `s` (both as character lists). -/
def charsStart : List Char → List Char → Bool
  | [], _ => true
  | _ :: _, [] => false
  | p :: ps, c :: cs => p == c && charsStart ps cs

/-- JavaScript `String.replace(pat, rep)` with a string pattern: replaces the
first occurrence only; the string is unchanged when the pattern is absent. -/
def replaceFirstChars (pat rep : List Char) : List Char → List Char
  | [] => if charsStart pat [] then rep else []
  | c :: cs =>
    if charsStart pat (c :: cs) then
      rep ++ (c :: cs).drop pat.length
    else
      c :: replaceFirstChars pat rep cs

/-- JavaScript `s.replace(pat, rep)` on strings (first occurrence). -/
def replaceFirst (s pat rep : String) : String :=
  String.mk (replaceFirstChars pat.data rep.data s.data)

/-- JS truthiness on an optional string: `undefined` and `""` are falsy. -/
def optTruthy : Option String → Option String
  | some s => if s.isEmpty then none else some s
  | none => none

/-- The `LnUrlPayCallback` shape: the invoice-issuance callback response (the unused
`routes` / `successAction` fields are omitted). -/
structure LnUrlPayCallback where
  pr : String
  verify : Option String
  k1 : Option String
  paymentHash : Option String
  checkingId : Option String
deriving Repr, DecidableEq

/-- Source `getVerifyUrl`: priority-ordered construction of the verify URL —
explicit `verify` field, then `k1` (rewrite `/callback` to `/verify` in the
callback path and attach `k1`), then `paymentHash`, then `checkingId`
(Bringin-specific URL from the address's domain and handle), else the bare
path rewrite. -/
def getVerifyUrl (r : LnUrlPayCallback) (callback : Url) (lnAddress : String) : String :=
  match optTruthy r.verify with
  | some v => v
  | none =>
    match optTruthy r.k1 with
    | some k1 =>
      urlToString { callback with
        path := replaceFirst callback.path "/callback" "/verify"
        query := setParam callback.query "k1" k1 }
    | none =>
      let parts := splitOnChar '@' lnAddress.data
      match optTruthy r.paymentHash with
      | some ph =>
        "https://api." ++ jsIndexStr parts 1 ++ "/lnurlp/" ++ jsIndexStr parts 0 ++
          "/verify?paymentHash=" ++ ph
      | none =>
        match optTruthy r.checkingId with
        | some cid =>
          "https://api." ++ jsIndexStr parts 1 ++ "/lnurlp/" ++ jsIndexStr parts 0 ++
            "/verify?checkingId=" ++ cid
        | none =>
          urlToString { callback with
            path := replaceFirst callback.path "/callback" "/verify" }

/-- The JSON body returned by the verify endpoint, restricted to the fields
the adapter probes. Boolean probes use `=== true`, so any non-`true` JS value
behaves like `some false` / `none`. Timestamps are abstracted to integers. -/
structure VerifyBody where
  settled : Option Bool
  paid : Option Bool
  expired : Option Bool
  pending : Option Bool
  status : Option String
  settledAt : Option Int
  paidAt : Option Int
  eurCredited : Option Bool
deriving Repr, DecidableEq

/-- Outcome of the single `fetch` of the verify endpoint: a thrown
network/parse exception, or a response with an HTTP status code, status text
and parsed JSON body. -/
inductive FetchOutcome where
  | exn
  | resp (status : Nat) (statusText : String) (body : VerifyBody)
deriving Repr, DecidableEq

/-- Modelling `Response.ok`: status in the inclusive range 200–299. -/
def httpOk (status : Nat) : Bool :=
  decide (200 ≤ status ∧ status < 300)

/-- Modelling `a || b` on optional timestamps (`data.settledAt || data.paidAt`);
absence is falsy. -/
def jsOrInt (a b : Option Int) : Option Int :=
  match a with
  | some x => some x
  | none => b

/-- The `BringinPaymentStatus` shape: the normalized verify result. -/
structure BringinPaymentStatus where
  status : SessionStatus
  paidAt : Option Int
  eurCredited : Option Bool
deriving Repr, DecidableEq

/-- Source `checkInvoiceStatus`: polls the verify URL once. 404/503 and any thrown
exception are normalized to a successful `pending`; any other non-success
HTTP status is a hard `verify_request_failed` failure; on success the
tri-state status is derived with fixed precedence over the response shape. -/
def checkInvoiceStatus (world : FetchOutcome) : Result BringinPaymentStatus :=
  match world with
  | .exn => .ok { status := .pending, paidAt := none, eurCredited := none }
  | .resp status statusText body =>
    if !httpOk status then
      if status = 404 ∨ status = 503 then
        .ok { status := .pending, paidAt := none, eurCredited := none }
      else
        .err "verify_request_failed"
          ("Failed to check status: " ++ toString status ++ " " ++ statusText)
    else
      let s : SessionStatus :=
        if body.settled = some true ∨ body.paid = some true ∨ body.status = some "paid" then
          .paid
        else if body.expired = some true ∨ body.status = some "expired" then
          .expired
        else if body.pending = some true ∨ body.status = some "pending" then
          .pending
        else
          .pending
      .ok { status := s
            paidAt := jsOrInt body.settledAt body.paidAt
            eurCredited := body.eurCredited }

/-!
## Verification handler (`handleVerifyStatus`)
-/

/-- The handler's response shape (`VerifyStatusResponse`). -/
structure VerifyStatusResponse where
  status : SessionStatus
  paidAt : Option Int
  amountSatsReceived : Option Int
deriving Repr, DecidableEq

/-- The external world one handler invocation observes: the clock (read once
per invocation), the fetch outcome of the verify-endpoint poll, and whether
the downstream `paymentReceived` notification throws. -/
structure HandlerEnv where
  now : Int
  fetch : FetchOutcome
  notifyFails : Bool
deriving Repr, DecidableEq

/-- The awaited `client.checkouts.paymentReceived(...)` call, which either
resolves or throws. -/
def attemptNotify (fails : Bool) : Except String Unit :=
  if fails then .error "notify failed" else .ok ()

/-- The local-demo mock fallback block of `handleVerifyStatus` (run when the
poll failed or returned `pending`): consult `shouldMockPaid`; when it fires,
stamp `paidAt = now`, update the store, attempt the downstream notification
inside `try`/`catch` (the failure is logged and swallowed), and return paid;
otherwise return pending. -/
def mockFallback (checkoutId : String) (session : Session) (env : HandlerEnv) (st : Store) :
    Result VerifyStatusResponse × Store :=
  let r := shouldMockPaid checkoutId session.createdAt env.now st
  if r.1 then
    let paidAt := env.now
    let st2 := updateSessionStatus checkoutId .paid (some paidAt) env.now r.2
    match attemptNotify env.notifyFails with
    | .ok _ =>
      (.ok { status := .paid, paidAt := some paidAt, amountSatsReceived := some session.sats }, st2)
    | .error _ =>
      (.ok { status := .paid, paidAt := some paidAt, amountSatsReceived := some session.sats }, st2)
  else
    (.ok { status := .pending, paidAt := none, amountSatsReceived := none }, r.2)

/-- Source `handleVerifyStatus`: look up the session; short-circuit when already
paid; transition to expired when past expiry; otherwise poll the verify URL,
fall back to the mock when the poll failed or is pending, and write paid /
expired transitions back to the store (downstream notification failures are
caught and swallowed). -/
def handleVerifyStatus (checkoutId : String) (env : HandlerEnv) (st : Store) :
    Result VerifyStatusResponse × Store :=
  match getSession checkoutId st with
  | none =>
    (.err "session_not_found" ("No session found for checkout: " ++ checkoutId), st)
  | some session =>
    if session.status = .paid then
      (.ok { status := .paid, paidAt := session.paidAt, amountSatsReceived := some session.sats },
        st)
    else if isSessionExpired env.now session then
      (.ok { status := .expired, paidAt := none, amountSatsReceived := none },
        updateSessionStatus checkoutId .expired none env.now st)
    else
      match checkInvoiceStatus env.fetch with
      | .err _ _ => mockFallback checkoutId session env st
      | .ok ps =>
        if ps.status = .pending then
          mockFallback checkoutId session env st
        else if ps.status = .paid then
          let paidAt := match ps.paidAt with
            | some t => t
            | none => env.now
          let st2 := updateSessionStatus checkoutId .paid (some paidAt) env.now st
          match attemptNotify env.notifyFails with
          | .ok _ =>
            (.ok { status := .paid, paidAt := some paidAt,
                   amountSatsReceived := some session.sats }, st2)
          | .error _ =>
            (.ok { status := .paid, paidAt := some paidAt,
                   amountSatsReceived := some session.sats }, st2)
        else if ps.status = .expired then
          (.ok { status := .expired, paidAt := none, amountSatsReceived := none },
            updateSessionStatus checkoutId .expired none env.now st)
        else
          (.ok { status := .pending, paidAt := none, amountSatsReceived := none }, st)

/-!
## Concrete fixtures used by witnesses and counterexamples
-/

/-- The empty store (fresh process state). -/
def emptyStore : Store := { sessions := [], mockPaidTimestamps := [] }

/-- A freshly created pending demo session. -/
def demoSession : Session :=
  { checkoutId := "c1", lnAddress := "u@d", eurAmount := 1, sats := 100, msats := 100000,
    bolt11 := "lnbc1", verifyUrl := "https://v", paymentHash := none,
    createdAt := 0, expiresAt := 1000000, status := .pending, paidAt := none,
    lastCheckedAt := none }

/-- A store holding exactly the pending demo session. -/
def demoStore : Store := { sessions := [("c1", demoSession)], mockPaidTimestamps := [] }

/-- A verify body whose only indicator is `expired: true`. -/
def bodyExpired : VerifyBody :=
  { settled := none, paid := none, expired := some true, pending := none,
    status := none, settledAt := none, paidAt := none, eurCredited := none }

/-- A verify body whose only indicator is `settled: true`. -/
def bodyPaid : VerifyBody :=
  { settled := some true, paid := none, expired := none, pending := none,
    status := none, settledAt := none, paidAt := none, eurCredited := none }

/-- A verify body carrying both a paid indicator and an expired indicator. -/
def bodyBoth : VerifyBody :=
  { settled := some true, paid := none, expired := some true, pending := none,
    status := none, settledAt := none, paidAt := none, eurCredited := none }

/-- A verify body with no recognized indicator at all. -/
def bodyEmpty : VerifyBody :=
  { settled := none, paid := none, expired := none, pending := none,
    status := none, settledAt := none, paidAt := none, eurCredited := none }

/-!
## Claim theorems
-/

/-- Claim C2, counterexample: At elapsed time exactly 12 000 ms since creation
(no marker present), `shouldMockPaid` returns `false`: the source tests
`elapsed > 12_000` strictly, so the claim's "true when the elapsed time is
greater than or equal to 12,000 ms" fails at the boundary. -/
theorem shouldMockPaid_boundary_counterexample :
    lookupKey "c" emptyStore.mockPaidTimestamps = none ∧
    (12000 : Int) - 0 ≥ 12000 ∧
    shouldMockPaid "c" 0 12000 emptyStore = (false, emptyStore) := by
  decide

/-- Claim C2, amended: With no marker, `shouldMockPaid` returns `false` while
the elapsed time is at most 12 000 ms and `true` (recording a marker stamped
with the current time) once the elapsed time strictly exceeds 12 000 ms; once
a marker exists, every call returns `true` and leaves the store unchanged. -/
theorem shouldMockPaid_spec (checkoutId : String) (createdAt now : Int) (st : Store) :
    (lookupKey checkoutId st.mockPaidTimestamps = none →
      (now - createdAt ≤ 12000 → shouldMockPaid checkoutId createdAt now st = (false, st)) ∧
      (now - createdAt > 12000 →
        shouldMockPaid checkoutId createdAt now st =
          (true, { st with
            mockPaidTimestamps := insertKey checkoutId now st.mockPaidTimestamps }))) ∧
    (∀ t, lookupKey checkoutId st.mockPaidTimestamps = some t →
      shouldMockPaid checkoutId createdAt now st = (true, st)) := by
  constructor
  · intro hnone
    constructor
    · intro hle
      simp [shouldMockPaid, hnone, not_lt.mpr hle]
    · intro hgt
      simp [shouldMockPaid, hnone, hgt]
  · intro t ht
    simp [shouldMockPaid, ht]

/-- Claim C2, witness: The amended theorem applied at elapsed time 13 000 ms on
the empty store. -/
theorem shouldMockPaid_spec_witness :
    shouldMockPaid "c" 0 13000 emptyStore =
      (true, { emptyStore with
        mockPaidTimestamps := insertKey "c" 13000 emptyStore.mockPaidTimestamps }) :=
  ((shouldMockPaid_spec "c" 0 13000 emptyStore).1 (by decide)).2 (by decide)

/-- Claim C8: A session whose stored status is `'paid'` makes
`handleVerifyStatus` return the cached paid result (stored `paidAt`, the
session's sats) with the store returned unchanged, for every environment —
in particular the result does not depend on the fetch outcome, so the
adapter's poll is never consulted. -/
theorem handleVerifyStatus_paid_cached (checkoutId : String) (env : HandlerEnv)
    (st : Store) (s : Session) (hs : getSession checkoutId st = some s)
    (hpaid : s.status = .paid) :
    handleVerifyStatus checkoutId env st =
      (.ok { status := .paid, paidAt := s.paidAt, amountSatsReceived := some s.sats }, st) := by
  simp [handleVerifyStatus, hs, hpaid]

/-- Claim C8, witness: The cached-paid short-circuit evaluated on a concrete
paid session. -/
theorem handleVerifyStatus_paid_cached_witness :
    handleVerifyStatus "c1"
        { now := 50, fetch := .resp 200 "OK" bodyExpired, notifyFails := true }
        { sessions := [("c1", { demoSession with status := .paid, paidAt := some 7 })],
          mockPaidTimestamps := [] } =
      (.ok { status := .paid, paidAt := some 7, amountSatsReceived := some 100 },
        { sessions := [("c1", { demoSession with status := .paid, paidAt := some 7 })],
          mockPaidTimestamps := [] }) :=
  handleVerifyStatus_paid_cached "c1"
    { now := 50, fetch := .resp 200 "OK" bodyExpired, notifyFails := true }
    { sessions := [("c1", { demoSession with status := .paid, paidAt := some 7 })],
      mockPaidTimestamps := [] }
    { demoSession with status := .paid, paidAt := some 7 } (by decide) (by decide)

/-- Claim C4: The status poll fails exactly on a non-success HTTP status other
than 404 and 503 (with code `verify_request_failed`); a non-success 404 or
503 response and a thrown network/parse exception are each normalized to a
successful `pending` result. -/
theorem checkInvoiceStatus_failure_spec (world : FetchOutcome) :
    ((checkInvoiceStatus world).isErr = true ↔
      ∃ status statusText body, world = .resp status statusText body ∧
        httpOk status = false ∧ status ≠ 404 ∧ status ≠ 503) ∧
    (checkInvoiceStatus .exn =
      .ok { status := .pending, paidAt := none, eurCredited := none }) ∧
    (∀ status statusText body, world = .resp status statusText body →
      httpOk status = false → (status = 404 ∨ status = 503) →
      checkInvoiceStatus world =
        .ok { status := .pending, paidAt := none, eurCredited := none }) ∧
    (∀ status statusText body, world = .resp status statusText body →
      httpOk status = false → status ≠ 404 → status ≠ 503 →
      checkInvoiceStatus world =
        .err "verify_request_failed"
          ("Failed to check status: " ++ toString status ++ " " ++ statusText)) := by
  refine ⟨?_, by rfl, ?_, ?_⟩
  · constructor
    · intro herr
      match world with
      | .exn => simp [checkInvoiceStatus, Result.isErr] at herr
      | .resp status statusText body =>
        refine ⟨status, statusText, body, rfl, ?_, ?_, ?_⟩ <;>
        · by_cases hok : httpOk status
          all_goals by_cases h404 : status = 404
          all_goals by_cases h503 : status = 503
          all_goals simp_all [checkInvoiceStatus, Result.isErr]
    · rintro ⟨status, statusText, body, rfl, hok, h404, h503⟩
      simp [checkInvoiceStatus, hok, h404, h503, Result.isErr]
  · rintro status statusText body rfl hok hor
    simp [checkInvoiceStatus, hok, hor]
  · rintro status statusText body rfl hok h404 h503
    simp [checkInvoiceStatus, hok, h404, h503]

/-- Claim C4, witness: A 500 response is a hard failure; instantiates the
failure branch of the theorem. -/
theorem checkInvoiceStatus_failure_spec_witness :
    checkInvoiceStatus (.resp 500 "ISE" bodyEmpty) =
      .err "verify_request_failed"
        ("Failed to check status: " ++ toString (500 : Nat) ++ " " ++ "ISE") :=
  (checkInvoiceStatus_failure_spec (.resp 500 "ISE" bodyEmpty)).2.2.2
    500 "ISE" bodyEmpty rfl (by decide) (by decide) (by decide)

/-- Claim C5: On an HTTP-success response the tri-state status is derived with
fixed precedence: a paid indicator (`settled === true`, `paid === true`, or
`status === 'paid'`) wins; otherwise an expired indicator
(`expired === true` or `status === 'expired'`); otherwise `pending`. -/
theorem checkInvoiceStatus_success_spec (status : Nat) (statusText : String)
    (body : VerifyBody) (hok : httpOk status = true) :
    checkInvoiceStatus (.resp status statusText body) =
      .ok { status :=
              if body.settled = some true ∨ body.paid = some true ∨
                  body.status = some "paid" then
                .paid
              else if body.expired = some true ∨ body.status = some "expired" then
                .expired
              else
                .pending
            paidAt := jsOrInt body.settledAt body.paidAt
            eurCredited := body.eurCredited } := by
  simp only [checkInvoiceStatus, hok, Bool.not_true, Bool.false_eq_true, if_false]
  split_ifs <;> simp_all

/-- Claim C5, witness: A body carrying both a paid indicator and an expired
indicator yields `'paid'`. -/
theorem checkInvoiceStatus_success_spec_witness :
    checkInvoiceStatus (.resp 200 "OK" bodyBoth) =
      .ok { status := .paid, paidAt := none, eurCredited := none } := by
  have h := checkInvoiceStatus_success_spec 200 "OK" bodyBoth (by decide)
  simpa [bodyBoth, jsOrInt] using h

theorem splitOnChar_ne_nil (c : Char) (l : List Char) : splitOnChar c l ≠ [] := by
  cases l with
  | nil => simp [splitOnChar]
  | cons x xs =>
    simp only [splitOnChar]
    by_cases h : x = c
    · simp [h]
    · simp only [if_neg h]
      rcases hs : splitOnChar c xs with _ | ⟨p, ps⟩ <;> simp

theorem splitOnChar_not_mem (c : Char) (l : List Char) (h : c ∉ l) :
    splitOnChar c l = [l] := by
  induction l with
  | nil => rfl
  | cons x xs ih =>
    simp only [List.mem_cons, not_or] at h
    simp [splitOnChar, Ne.symm h.1, ih h.2]

theorem splitOnChar_append (c : Char) (u d : List Char) (hu : c ∉ u) :
    splitOnChar c (u ++ c :: d) = u :: splitOnChar c d := by
  induction u with
  | nil => simp [splitOnChar]
  | cons x xs ih =>
    simp only [List.mem_cons, not_or] at hu
    simp [splitOnChar, Ne.symm hu.1, ih hu.2]

/-- Joining split parts back with the separator. -/
def joinParts (c : Char) : List (List Char) → List Char
  | [] => []
  | [p] => p
  | p :: ps => p ++ c :: joinParts c ps

theorem joinParts_splitOnChar (c : Char) (l : List Char) :
    joinParts c (splitOnChar c l) = l := by
  induction l with
  | nil => rfl
  | cons x xs ih =>
    simp only [splitOnChar]
    by_cases h : x = c
    · simp only [if_pos h]
      rcases hs : splitOnChar c xs with _ | ⟨p, ps⟩
      · exact absurd hs (splitOnChar_ne_nil c xs)
      · rw [hs] at ih
        simp [joinParts, ih, h]
    · simp only [if_neg h]
      rcases hs : splitOnChar c xs with _ | ⟨p, ps⟩
      · exact absurd hs (splitOnChar_ne_nil c xs)
      · rw [hs] at ih
        cases ps with
        | nil => simpa [joinParts] using congrArg (x :: ·) ih
        | cons q qs =>
          simp only [joinParts] at ih ⊢
          simpa using congrArg (x :: ·) ih

theorem not_mem_of_mem_splitOnChar (c : Char) (l : List Char) (p : List Char)
    (hp : p ∈ splitOnChar c l) : c ∉ p := by
  induction l generalizing p with
  | nil =>
    simp only [splitOnChar, List.mem_singleton] at hp
    simp [hp]
  | cons x xs ih =>
    simp only [splitOnChar] at hp
    by_cases h : x = c
    · simp only [if_pos h, List.mem_cons] at hp
      rcases hp with hp | hp
      · simp [hp]
      · exact ih p hp
    · simp only [if_neg h] at hp
      rcases hs : splitOnChar c xs with _ | ⟨q, qs⟩
      · exact absurd hs (splitOnChar_ne_nil c xs)
      · rw [hs] at hp
        simp only [List.mem_cons] at hp
        rcases hp with hp | hp
        · subst hp
          intro hmem
          rcases List.mem_cons.mp hmem with hc | hc
          · exact h hc.symm
          · exact ih q (hs ▸ List.mem_cons_self _ _) hc
        · exact ih p (hs ▸ List.mem_cons_of_mem _ hp)

/-- Claim C7: `resolveLightningAddress` succeeds with the deterministic
discovery URL exactly on addresses of the form `user@domain` with a single
`'@'` and non-empty user and domain; every malformed address fails with the
`invalid_ln_address` code (the spec's `invalid_address`). -/
theorem resolveLightningAddress_spec :
    (∀ u d : List Char, '@' ∉ u → '@' ∉ d → u ≠ [] → d ≠ [] →
      resolveLightningAddress ⟨u ++ '@' :: d⟩ =
        .ok ("https://" ++ String.mk d ++ "/.well-known/lnurlp/" ++ String.mk u)) ∧
    (∀ addr : String,
      (¬ ∃ u d : List Char,
          addr.data = u ++ '@' :: d ∧ '@' ∉ u ∧ '@' ∉ d ∧ u ≠ [] ∧ d ≠ []) →
      ∃ msg, resolveLightningAddress addr = .err "invalid_ln_address" msg) := by
  constructor
  · intro u d hu hd hu0 hd0
    simp only [resolveLightningAddress, splitOnChar_append '@' u d hu,
      splitOnChar_not_mem '@' d hd]
    simp [List.isEmpty_iff, hu0, hd0]
  · intro addr h
    simp only [resolveLightningAddress]
    rcases hs : splitOnChar '@' addr.data with _ | ⟨u, _ | ⟨d, _ | ⟨e, rest⟩⟩⟩
    · exact absurd hs (splitOnChar_ne_nil '@' addr.data)
    · exact ⟨"Invalid Lightning Address format: " ++ addr, by simp [hs]⟩
    · by_cases hu0 : u.isEmpty
      · exact ⟨"Lightning Address must be in format user@domain", by simp [hs, hu0]⟩
      · by_cases hd0 : d.isEmpty
        · exact ⟨"Lightning Address must be in format user@domain", by simp [hs, hu0, hd0]⟩
        · exfalso
          apply h
          refine ⟨u, d, ?_, ?_, ?_, ?_, ?_⟩
          · have hj := joinParts_splitOnChar '@' addr.data
            rw [hs] at hj
            simpa [joinParts] using hj.symm
          · exact not_mem_of_mem_splitOnChar '@' addr.data u
              (hs ▸ List.mem_cons_self _ _)
          · exact not_mem_of_mem_splitOnChar '@' addr.data d
              (hs ▸ List.mem_cons_of_mem _ (List.mem_cons_self _ _))
          · simpa [List.isEmpty_iff] using hu0
          · simpa [List.isEmpty_iff] using hd0
    · exact ⟨"Invalid Lightning Address format: " ++ addr, by simp [hs]⟩

/-- Claim C7, witness: The success branch on `user@domain` and the failure
branch on the `'@'`-free address `ab`. -/
theorem resolveLightningAddress_spec_witness :
    resolveLightningAddress ⟨['u', 's', 'e', 'r'] ++ '@' :: ['d', 'o', 'm', 'a', 'i', 'n']⟩ =
      .ok ("https://" ++ String.mk ['d', 'o', 'm', 'a', 'i', 'n'] ++
        "/.well-known/lnurlp/" ++ String.mk ['u', 's', 'e', 'r']) ∧
    ∃ msg, resolveLightningAddress "ab" = .err "invalid_ln_address" msg := by
  constructor
  · exact resolveLightningAddress_spec.1 ['u', 's', 'e', 'r'] ['d', 'o', 'm', 'a', 'i', 'n']
      (by decide) (by decide) (by decide) (by decide)
  · apply resolveLightningAddress_spec.2
    rintro ⟨u, d, heq, -, -, -, -⟩
    have hmem : '@' ∈ "ab".data := by
      rw [heq]
      simp
    exact absurd hmem (by decide)

/-- The keys of the sessions the cleanup sweep deletes. -/
def doomedKeys (now : Int) (l : List (String × Session)) : List String :=
  (l.filter (fun e => staleExpired now e.2)).map Prod.fst

/-- Erasing a list of keys in sequence. -/
def removeKeys {α : Type} : List String → List (String × α) → List (String × α)
  | [], l => l
  | k :: ks, l => removeKeys ks (eraseKey k l)

theorem cleanupGo_eq (now : Int) (l : List (String × Session)) (st : Store) :
    cleanupGo now l st =
      ((l.filter (fun e => staleExpired now e.2)).length,
        { sessions := removeKeys (doomedKeys now l) st.sessions
          mockPaidTimestamps := removeKeys (doomedKeys now l) st.mockPaidTimestamps }) := by
  induction l generalizing st with
  | nil => simp [cleanupGo, doomedKeys, removeKeys]
  | cons e rest ih =>
    obtain ⟨k, s⟩ := e
    by_cases hc : staleExpired now s
    · simp [cleanupGo, hc, doomedKeys, removeKeys, ih, List.filter_cons]
    · simp [cleanupGo, hc, doomedKeys, removeKeys, ih, List.filter_cons]

theorem eraseKey_eq_filter {α : Type} (k : String) (l : List (String × α))
    (hnd : (l.map Prod.fst).Nodup) :
    eraseKey k l = l.filter (fun e => e.1 != k) := by
  induction l with
  | nil => rfl
  | cons e rest ih =>
    obtain ⟨a, v⟩ := e
    simp only [List.map_cons, List.nodup_cons] at hnd
    by_cases he : a = k
    · subst he
      rw [List.filter_cons_of_neg (by simp)]
      simp only [eraseKey, if_true]
      symm
      rw [List.filter_eq_self]
      intro x hx
      simp only [bne_iff_ne, ne_eq]
      intro hxk
      exact hnd.1 (List.mem_map.mpr ⟨x, hx, hxk⟩)
    · rw [List.filter_cons_of_pos (by simpa using he)]
      simp only [eraseKey, if_neg he]
      rw [ih hnd.2]

theorem removeKeys_eq_filter {α : Type} (ks : List String) (l : List (String × α))
    (hnd : (l.map Prod.fst).Nodup) :
    removeKeys ks l = l.filter (fun e => decide (e.1 ∉ ks)) := by
  induction ks generalizing l with
  | nil => simp [removeKeys]
  | cons k ks ih =>
    simp only [removeKeys]
    rw [ih (eraseKey k l) (eraseKey_nodup k l hnd), eraseKey_eq_filter k l hnd,
      List.filter_filter]
    apply List.filter_congr
    intro e _
    by_cases h1 : e.1 = k
    · simp [h1]
    · by_cases h2 : e.1 ∈ ks <;> simp [h1, h2]

/-- Under unique keys, two entries of the list with the same key are the
same entry. -/
theorem entry_key_inj {α : Type} (l : List (String × α))
    (hnd : (l.map Prod.fst).Nodup) (e e' : String × α) (he : e ∈ l) (he' : e' ∈ l)
    (hk : e.1 = e'.1) : e = e' := by
  induction l with
  | nil => cases he
  | cons x rest ih =>
    simp only [List.map_cons, List.nodup_cons] at hnd
    rcases List.mem_cons.mp he with rfl | he2
    · rcases List.mem_cons.mp he' with rfl | he2'
      · rfl
      · exact absurd (List.mem_map.mpr ⟨e', he2', hk.symm⟩) hnd.1
    · rcases List.mem_cons.mp he' with rfl | he2'
      · exact absurd (List.mem_map.mpr ⟨e, he2, hk⟩) hnd.1
      · exact ih hnd.2 he2 he2'

theorem mem_doomedKeys_iff (now : Int) (l : List (String × Session))
    (hnd : (l.map Prod.fst).Nodup) (e : String × Session) (he : e ∈ l) :
    e.1 ∈ doomedKeys now l ↔ staleExpired now e.2 = true := by
  constructor
  · intro hmem
    rcases List.mem_map.mp hmem with ⟨e', he', hkey⟩
    rcases List.mem_filter.mp he' with ⟨he'l, hc⟩
    have heq : e' = e := entry_key_inj l hnd e' e he'l he hkey
    rw [← heq]
    exact hc
  · intro hc
    exact List.mem_map.mpr ⟨e, List.mem_filter.mpr ⟨he, hc⟩, rfl⟩

/-- Claim C9: `cleanupExpiredSessions` deletes exactly the sessions whose
status is `'expired'` and whose expiry lies strictly more than 3 600 000 ms
in the past, removes exactly the mock markers of those deleted sessions, and
returns the number deleted; every other session and marker is left unchanged
(stated via list filters, under the map invariant of unique keys). -/
theorem cleanupExpiredSessions_spec (now : Int) (st : Store)
    (hs : (st.sessions.map Prod.fst).Nodup)
    (hm : (st.mockPaidTimestamps.map Prod.fst).Nodup) :
    (cleanupExpiredSessions now st).1 =
        (st.sessions.filter (fun e => staleExpired now e.2)).length ∧
    (cleanupExpiredSessions now st).2.sessions =
        st.sessions.filter (fun e => !staleExpired now e.2) ∧
    (cleanupExpiredSessions now st).2.mockPaidTimestamps =
        st.mockPaidTimestamps.filter
          (fun m => decide (m.1 ∉ doomedKeys now st.sessions)) := by
  have hgo := cleanupGo_eq now st.sessions st
  refine ⟨by rw [cleanupExpiredSessions, hgo], ?_, ?_⟩
  · rw [cleanupExpiredSessions, hgo]
    simp only
    rw [removeKeys_eq_filter _ _ hs]
    apply List.filter_congr
    intro e he
    by_cases hc : staleExpired now e.2
    · simp [hc, (mem_doomedKeys_iff now st.sessions hs e he).mpr hc]
    · have hnotin : e.1 ∉ doomedKeys now st.sessions := by
        intro h
        exact hc ((mem_doomedKeys_iff now st.sessions hs e he).mp h)
      simp [hc, hnotin]
  · rw [cleanupExpiredSessions, hgo]
    simp only
    rw [removeKeys_eq_filter _ _ hm]

/-- A store with a session expired two hours ago, one expired 30 minutes
ago, and a paid one past expiry, with mock markers for the first two. -/
def cleanupDemoStore : Store :=
  { sessions :=
      [("old", { demoSession with
          checkoutId := "old"
          expiresAt := 0
          status := .expired }),
       ("mid", { demoSession with
          checkoutId := "mid"
          expiresAt := 5400000
          status := .expired }),
       ("paidone", { demoSession with
          checkoutId := "paidone"
          expiresAt := 0
          status := .paid })]
    mockPaidTimestamps := [("old", 3), ("mid", 4)] }

/-- Claim C9, witness: At time 7 200 000 only the session expired two hours ago
is deleted, together with exactly its marker; the session expired 30 minutes
ago and the paid session remain. -/
theorem cleanupExpiredSessions_spec_witness :
    (cleanupExpiredSessions 7200000 cleanupDemoStore).1 = 1 ∧
    (cleanupExpiredSessions 7200000 cleanupDemoStore).2.sessions =
      [("mid", { demoSession with
          checkoutId := "mid"
          expiresAt := 5400000
          status := .expired }),
       ("paidone", { demoSession with
          checkoutId := "paidone"
          expiresAt := 0
          status := .paid })] ∧
    (cleanupExpiredSessions 7200000 cleanupDemoStore).2.mockPaidTimestamps =
      [("mid", 4)] := by
  have h := cleanupExpiredSessions_spec 7200000 cleanupDemoStore (by decide) (by decide)
  refine ⟨?_, ?_, ?_⟩
  · rw [h.1]
    decide
  · rw [h.2.1]
    decide
  · rw [h.2.2]
    decide

theorem updateSessionStatus_mock (checkoutId : String) (status : SessionStatus)
    (paidAt : Option Int) (now : Int) (st : Store) :
    (updateSessionStatus checkoutId status paidAt now st).mockPaidTimestamps =
      st.mockPaidTimestamps := by
  unfold updateSessionStatus
  cases lookupKey checkoutId st.sessions <;> rfl

theorem shouldMockPaid_preserves_marker (checkoutId : String) (createdAt now : Int)
    (st : Store) (id' : String) (t : Int)
    (h : lookupKey id' st.mockPaidTimestamps = some t) :
    lookupKey id' (shouldMockPaid checkoutId createdAt now st).2.mockPaidTimestamps =
      some t := by
  unfold shouldMockPaid
  cases hm : lookupKey checkoutId st.mockPaidTimestamps with
  | some u => simpa using h
  | none =>
    by_cases hid : id' = checkoutId
    · subst hid
      rw [h] at hm
      cases hm
    · by_cases hgt : now - createdAt > 12000
      · simpa [hgt, lookupKey_insertKey_ne checkoutId id' now st.mockPaidTimestamps hid]
          using h
      · simpa [hgt] using h

theorem mockFallback_preserves_marker (checkoutId : String) (session : Session)
    (env : HandlerEnv) (st : Store) (id' : String) (t : Int)
    (h : lookupKey id' st.mockPaidTimestamps = some t) :
    lookupKey id' (mockFallback checkoutId session env st).2.mockPaidTimestamps =
      some t := by
  unfold mockFallback
  have hp := shouldMockPaid_preserves_marker checkoutId session.createdAt env.now st id' t h
  by_cases hr : (shouldMockPaid checkoutId session.createdAt env.now st).1
  · cases hn : attemptNotify env.notifyFails <;>
      simpa [hr, hn, updateSessionStatus_mock] using hp
  · simpa [hr] using hp

theorem handleVerifyStatus_preserves_marker (checkoutId : String) (env : HandlerEnv)
    (st : Store) (id' : String) (t : Int)
    (h : lookupKey id' st.mockPaidTimestamps = some t) :
    lookupKey id' (handleVerifyStatus checkoutId env st).2.mockPaidTimestamps =
      some t := by
  unfold handleVerifyStatus
  cases hg : getSession checkoutId st with
  | none => simpa using h
  | some session =>
    by_cases hpaid : session.status = SessionStatus.paid
    · simpa [hpaid] using h
    · by_cases hexp : isSessionExpired env.now session
      · simpa [hpaid, hexp, updateSessionStatus_mock] using h
      · cases hs : checkInvoiceStatus env.fetch with
        | err c m =>
          simpa [hpaid, hexp] using
            mockFallback_preserves_marker checkoutId session env st id' t h
        | ok ps =>
          by_cases hpend : ps.status = SessionStatus.pending
          · simpa [hpaid, hexp, hpend] using
              mockFallback_preserves_marker checkoutId session env st id' t h
          · by_cases hp2 : ps.status = SessionStatus.paid
            · cases hn : attemptNotify env.notifyFails <;>
                simpa [hpaid, hexp, hpend, hp2, hn, updateSessionStatus_mock] using h
            · by_cases he2 : ps.status = SessionStatus.expired
              · simpa [hpaid, hexp, hpend, hp2, he2, updateSessionStatus_mock] using h
              · simpa [hpaid, hexp, hpend, hp2, he2] using h

/-- Claim C10, counterexample: The claim's "only `deleteSession` and
`clearAllSessions` remove markers" is false: the cleanup sweep also removes
the marker of each session it deletes. -/
theorem marker_removal_counterexample :
    lookupKey "old" cleanupDemoStore.mockPaidTimestamps = some 3 ∧
    lookupKey "old"
        (cleanupExpiredSessions 7200000 cleanupDemoStore).2.mockPaidTimestamps =
      none := by
  decide

/-- Claim C10, amended: `createSession` never touches the mock-marker map (it
only overwrites the session record, forcing status `'pending'` and
`createdAt = now`), so an existing marker makes the first `shouldMockPaid`
call for the recreated session return `true` immediately regardless of the
new creation time; `updateSessionStatus` and the verification handler never
remove an existing marker either — markers are removed only by
`deleteSession`, `clearAllSessions`, and `cleanupExpiredSessions`. -/
theorem createSession_marker_frame :
    (∀ f now st, (createSession f now st).mockPaidTimestamps = st.mockPaidTimestamps) ∧
    (∀ f now st,
      (getSession f.checkoutId (createSession f now st)).map Session.status =
          some .pending ∧
      (getSession f.checkoutId (createSession f now st)).map Session.createdAt =
          some now) ∧
    (∀ checkoutId createdAt now st t,
      lookupKey checkoutId st.mockPaidTimestamps = some t →
      shouldMockPaid checkoutId createdAt now st = (true, st)) ∧
    (∀ f createdAt now now' st t,
      lookupKey f.checkoutId st.mockPaidTimestamps = some t →
      shouldMockPaid f.checkoutId createdAt now' (createSession f now st) =
        (true, createSession f now st)) ∧
    (∀ checkoutId status paidAt now st,
      (updateSessionStatus checkoutId status paidAt now st).mockPaidTimestamps =
        st.mockPaidTimestamps) ∧
    (∀ checkoutId env st id' t,
      lookupKey id' st.mockPaidTimestamps = some t →
      lookupKey id' (handleVerifyStatus checkoutId env st).2.mockPaidTimestamps =
        some t) ∧
    (∀ checkoutId st, lookupKey checkoutId
        (deleteSession checkoutId st).mockPaidTimestamps =
      lookupKey checkoutId (eraseKey checkoutId st.mockPaidTimestamps)) ∧
    (∀ st, (clearAllSessions st).mockPaidTimestamps = []) := by
  refine ⟨fun f now st => rfl, ?_, ?_, ?_,
    updateSessionStatus_mock, handleVerifyStatus_preserves_marker,
    fun checkoutId st => rfl, fun st => rfl⟩
  · intro f now st
    constructor <;>
      simp [getSession, createSession, lookupKey_insertKey_self]
  · intro checkoutId createdAt now st t h
    simp [shouldMockPaid, h]
  · intro f createdAt now now' st t h
    have h2 : lookupKey f.checkoutId
        (createSession f now st).mockPaidTimestamps = some t := h
    simp [shouldMockPaid, h2]

/-- Claim C10, witness: A marker for `c1` survives recreating the session and
makes the first `shouldMockPaid` call fire immediately (elapsed time 0). -/
theorem createSession_marker_frame_witness :
    shouldMockPaid "c1" 100 100
        (createSession
          { checkoutId := "c1", lnAddress := "u@d", eurAmount := 1, sats := 100,
            msats := 100000, bolt11 := "lnbc1", verifyUrl := "https://v",
            paymentHash := none, expiresAt := 1000000, paidAt := none,
            lastCheckedAt := none } 100
          { sessions := [], mockPaidTimestamps := [("c1", 5)] }) =
      (true, createSession
          { checkoutId := "c1", lnAddress := "u@d", eurAmount := 1, sats := 100,
            msats := 100000, bolt11 := "lnbc1", verifyUrl := "https://v",
            paymentHash := none, expiresAt := 1000000, paidAt := none,
            lastCheckedAt := none } 100
          { sessions := [], mockPaidTimestamps := [("c1", 5)] }) :=
  createSession_marker_frame.2.2.2.1
    { checkoutId := "c1", lnAddress := "u@d", eurAmount := 1, sats := 100,
      msats := 100000, bolt11 := "lnbc1", verifyUrl := "https://v",
      paymentHash := none, expiresAt := 1000000, paidAt := none,
      lastCheckedAt := none } 100 100 100
    { sessions := [], mockPaidTimestamps := [("c1", 5)] } 5 (by decide)

/-- A callback URL whose path contains the substring `/callback` twice. -/
def demoCallbackUrl : Url :=
  { scheme := "https", host := "x.com", path := "/callback/v1/callback", query := [] }

/-- A callback response carrying only a `k1` token. -/
def demoK1Resp : LnUrlPayCallback :=
  { pr := "lnbc1", verify := none, k1 := some "abc", paymentHash := none,
    checkingId := none }

/-- Modelled from the claim's words, for comparison with the source's
`getVerifyUrl`: rewrite the callback path's FINAL SEGMENT `callback` to
`verify` (leaving the path unchanged when the final segment is not
`callback`). -/
def rewriteFinalSegment (path : String) : String :=
  let segs := splitOnChar '/' path.data
  match segs.getLast? with
  | some seg =>
    if seg = "callback".data then
      String.mk (joinParts '/' (segs.dropLast ++ ["verify".data]))
    else
      path
  | none => path

/-- Modelled from the claim's words, for comparison with the source's
`getVerifyUrl`: identical priority structure, but branches (2) and (4)
rewrite the callback path's final segment instead of the first occurrence of
the substring `/callback`. -/
def getVerifyUrlClaim (r : LnUrlPayCallback) (callback : Url) (lnAddress : String) :
    String :=
  match optTruthy r.verify with
  | some v => v
  | none =>
    match optTruthy r.k1 with
    | some k1 =>
      urlToString { callback with
        path := rewriteFinalSegment callback.path
        query := setParam callback.query "k1" k1 }
    | none =>
      let parts := splitOnChar '@' lnAddress.data
      match optTruthy r.paymentHash with
      | some ph =>
        "https://api." ++ jsIndexStr parts 1 ++ "/lnurlp/" ++ jsIndexStr parts 0 ++
          "/verify?paymentHash=" ++ ph
      | none =>
        match optTruthy r.checkingId with
        | some cid =>
          "https://api." ++ jsIndexStr parts 1 ++ "/lnurlp/" ++ jsIndexStr parts 0 ++
            "/verify?checkingId=" ++ cid
        | none =>
          urlToString { callback with path := rewriteFinalSegment callback.path }

/-- Claim C6, counterexample: On a callback path containing `/callback` twice,
the source replaces the FIRST occurrence (`String.replace` with a string
pattern), not the final segment as the claim states: the two constructions
disagree on `/callback/v1/callback`. -/
theorem getVerifyUrl_counterexample :
    getVerifyUrl demoK1Resp demoCallbackUrl "u@d" =
      "https://x.com/verify/v1/callback?k1=abc" ∧
    getVerifyUrlClaim demoK1Resp demoCallbackUrl "u@d" =
      "https://x.com/callback/v1/verify?k1=abc" ∧
    getVerifyUrl demoK1Resp demoCallbackUrl "u@d" ≠
      getVerifyUrlClaim demoK1Resp demoCallbackUrl "u@d" := by
  decide

/-- Claim C6, amended: `getVerifyUrl` follows the fixed priority order:
(1) a (truthy) explicit verify URL is returned as-is; (2) else with a `k1`
token, the FIRST occurrence of the substring `/callback` in the callback
path is replaced by `/verify` (path unchanged when absent) and `k1` is
attached as a query parameter; (3) else with a `paymentHash` or
`checkingId`, a provider-specific verify URL is built from the address's
domain and handle; (4) else the callback path is rewritten the same way with
no added parameters. -/
theorem getVerifyUrl_spec (r : LnUrlPayCallback) (cb : Url) (lnAddress : String) :
    (∀ v, optTruthy r.verify = some v → getVerifyUrl r cb lnAddress = v) ∧
    (∀ k, optTruthy r.verify = none → optTruthy r.k1 = some k →
      getVerifyUrl r cb lnAddress =
        urlToString { cb with
          path := replaceFirst cb.path "/callback" "/verify"
          query := setParam cb.query "k1" k }) ∧
    (∀ ph, optTruthy r.verify = none → optTruthy r.k1 = none →
      optTruthy r.paymentHash = some ph →
      getVerifyUrl r cb lnAddress =
        "https://api." ++ jsIndexStr (splitOnChar '@' lnAddress.data) 1 ++
          "/lnurlp/" ++ jsIndexStr (splitOnChar '@' lnAddress.data) 0 ++
          "/verify?paymentHash=" ++ ph) ∧
    (∀ cid, optTruthy r.verify = none → optTruthy r.k1 = none →
      optTruthy r.paymentHash = none → optTruthy r.checkingId = some cid →
      getVerifyUrl r cb lnAddress =
        "https://api." ++ jsIndexStr (splitOnChar '@' lnAddress.data) 1 ++
          "/lnurlp/" ++ jsIndexStr (splitOnChar '@' lnAddress.data) 0 ++
          "/verify?checkingId=" ++ cid) ∧
    (optTruthy r.verify = none → optTruthy r.k1 = none →
      optTruthy r.paymentHash = none → optTruthy r.checkingId = none →
      getVerifyUrl r cb lnAddress =
        urlToString { cb with
          path := replaceFirst cb.path "/callback" "/verify" }) := by
  refine ⟨?_, ?_, ?_, ?_, ?_⟩
  · intro v hv
    simp [getVerifyUrl, hv]
  · intro k hv hk
    simp [getVerifyUrl, hv, hk]
  · intro ph hv hk hp
    simp [getVerifyUrl, hv, hk, hp]
  · intro cid hv hk hp hc
    simp [getVerifyUrl, hv, hk, hp, hc]
  · intro hv hk hp hc
    simp [getVerifyUrl, hv, hk, hp, hc]

/-- Claim C6, witness: The `k1` branch of the amended theorem evaluated on the
concrete callback response and URL. -/
theorem getVerifyUrl_spec_witness :
    getVerifyUrl demoK1Resp demoCallbackUrl "u@d" =
      urlToString { demoCallbackUrl with
        path := replaceFirst demoCallbackUrl.path "/callback" "/verify"
        query := setParam demoCallbackUrl.query "k1" "abc" } :=
  (getVerifyUrl_spec demoK1Resp demoCallbackUrl "u@d").2.1 "abc" (by decide) (by decide)

theorem shouldMockPaid_sessions (checkoutId : String) (createdAt now : Int) (st : Store) :
    (shouldMockPaid checkoutId createdAt now st).2.sessions = st.sessions := by
  unfold shouldMockPaid
  cases lookupKey checkoutId st.mockPaidTimestamps with
  | some t => rfl
  | none =>
    by_cases h : now - createdAt > 12000 <;> simp [h]

theorem getSession_updateSessionStatus_self (checkoutId : String)
    (status : SessionStatus) (paidAt : Option Int) (now : Int) (st : Store)
    (s : Session) (hs : lookupKey checkoutId st.sessions = some s) :
    getSession checkoutId (updateSessionStatus checkoutId status paidAt now st) =
      some { s with
        status := status
        lastCheckedAt := some now
        paidAt := match paidAt with
          | some p => some p
          | none => s.paidAt } := by
  unfold updateSessionStatus getSession
  rw [hs]
  simp [lookupKey_insertKey_self]

theorem mockFallback_notify_independent (checkoutId : String) (session : Session)
    (now : Int) (fetch : FetchOutcome) (b nf : Bool) (st : Store) :
    mockFallback checkoutId session { now := now, fetch := fetch, notifyFails := b } st =
      mockFallback checkoutId session { now := now, fetch := fetch, notifyFails := nf } st := by
  unfold mockFallback attemptNotify
  by_cases hr : (shouldMockPaid checkoutId session.createdAt now st).1
  · cases b <;> cases nf <;> simp [hr]
  · simp [hr]

theorem handleVerifyStatus_notify_independent (checkoutId : String) (env : HandlerEnv)
    (st : Store) (b : Bool) :
    handleVerifyStatus checkoutId { env with notifyFails := b } st =
      handleVerifyStatus checkoutId env st := by
  obtain ⟨now, fetch, nf⟩ := env
  show handleVerifyStatus checkoutId
      { now := now, fetch := fetch, notifyFails := b } st =
    handleVerifyStatus checkoutId { now := now, fetch := fetch, notifyFails := nf } st
  unfold handleVerifyStatus
  cases getSession checkoutId st with
  | none => rfl
  | some session =>
    by_cases hpaid : session.status = SessionStatus.paid
    · simp [hpaid]
    · by_cases hexp : isSessionExpired now session
      · simp [hpaid, hexp]
      · cases checkInvoiceStatus fetch with
        | err c m =>
          simpa [hpaid, hexp] using
            mockFallback_notify_independent checkoutId session now fetch b nf st
        | ok ps =>
          by_cases hpend : ps.status = SessionStatus.pending
          · simpa [hpaid, hexp, hpend] using
              mockFallback_notify_independent checkoutId session now fetch b nf st
          · by_cases hp2 : ps.status = SessionStatus.paid
            · unfold attemptNotify
              cases b <;> cases nf <;> simp [hpaid, hexp, hpend, hp2]
            · by_cases he2 : ps.status = SessionStatus.expired
              · simp [hpaid, hexp, hpend, hp2, he2]
              · simp [hpaid, hexp, hpend, hp2, he2]

/-- Claim C3: When a non-expired pending session's poll (or the mock fallback)
yields `'paid'`, `handleVerifyStatus` writes status `'paid'` with `paidAt`
set into the store and returns the paid result, and the whole outcome
(return value and store) is independent of whether the downstream
`paymentReceived` notification throws — the error is caught and swallowed. -/
theorem handleVerifyStatus_paid_swallows_notify (checkoutId : String)
    (env : HandlerEnv) (st : Store) (s : Session)
    (hs : getSession checkoutId st = some s)
    (hpend : s.status = .pending)
    (hexp : isSessionExpired env.now s = false)
    (hyp : (∃ ps, checkInvoiceStatus env.fetch = .ok ps ∧ ps.status = .paid) ∨
      (((checkInvoiceStatus env.fetch).isErr = true ∨
        (∃ ps, checkInvoiceStatus env.fetch = .ok ps ∧ ps.status = .pending)) ∧
       (shouldMockPaid checkoutId s.createdAt env.now st).1 = true)) :
    ∃ t st',
      handleVerifyStatus checkoutId env st =
        (.ok { status := .paid, paidAt := some t, amountSatsReceived := some s.sats },
          st') ∧
      getSession checkoutId st' =
        some { s with
          status := .paid
          paidAt := some t
          lastCheckedAt := some env.now } ∧
      (∀ b, handleVerifyStatus checkoutId { env with notifyFails := b } st =
        handleVerifyStatus checkoutId env st) := by
  have hpaidne : ¬ s.status = SessionStatus.paid := by
    rw [hpend]
    intro h
    cases h
  rcases hyp with ⟨ps, hok, hps⟩ | ⟨hincon, hmock⟩
  · have hpsnp : ¬ ps.status = SessionStatus.pending := by
      rw [hps]
      intro h
      cases h
    refine ⟨(match ps.paidAt with | some t => t | none => env.now),
      updateSessionStatus checkoutId .paid
        (some (match ps.paidAt with | some t => t | none => env.now)) env.now st,
      ?_, ?_, fun b => handleVerifyStatus_notify_independent checkoutId env st b⟩
    · cases hn : attemptNotify env.notifyFails <;>
        simp [handleVerifyStatus, hs, hpaidne, hexp, hok, hpsnp, hps, hn]
    · rw [getSession_updateSessionStatus_self checkoutId .paid _ env.now st s hs]
  · refine ⟨env.now,
      updateSessionStatus checkoutId .paid (some env.now) env.now
        (shouldMockPaid checkoutId s.createdAt env.now st).2,
      ?_, ?_, fun b => handleVerifyStatus_notify_independent checkoutId env st b⟩
    · rcases hincon with herr | ⟨ps, hok, hps⟩
      · cases hcs : checkInvoiceStatus env.fetch with
        | ok ps => rw [hcs] at herr; cases herr
        | err c m =>
          cases hn : attemptNotify env.notifyFails <;>
            simp [handleVerifyStatus, hs, hpaidne, hexp, hcs, mockFallback, hmock, hn]
      · cases hn : attemptNotify env.notifyFails <;>
          simp [handleVerifyStatus, hs, hpaidne, hexp, hok, hps, mockFallback, hmock, hn]
    · have hsess : lookupKey checkoutId
          (shouldMockPaid checkoutId s.createdAt env.now st).2.sessions = some s := by
        rw [shouldMockPaid_sessions]
        exact hs
      rw [getSession_updateSessionStatus_self checkoutId .paid _ env.now _ s hsess]

/-- Claim C3, witness: A concrete pending, non-expired session whose poll
returns a paid body, with a throwing notification (`notifyFails = true`):
the theorem instantiated there. -/
theorem handleVerifyStatus_paid_swallows_notify_witness :
    ∃ t st',
      handleVerifyStatus "c1"
          { now := 1000, fetch := .resp 200 "OK" bodyPaid, notifyFails := true }
          demoStore =
        (.ok { status := .paid, paidAt := some t,
               amountSatsReceived := some demoSession.sats }, st') ∧
      getSession "c1" st' =
        some { demoSession with
          status := .paid
          paidAt := some t
          lastCheckedAt := some (1000 : Int) } ∧
      (∀ b, handleVerifyStatus "c1"
          { now := 1000, fetch := .resp 200 "OK" bodyPaid, notifyFails := b }
          demoStore =
        handleVerifyStatus "c1"
          { now := 1000, fetch := .resp 200 "OK" bodyPaid, notifyFails := true }
          demoStore) :=
  handleVerifyStatus_paid_swallows_notify "c1"
    { now := 1000, fetch := .resp 200 "OK" bodyPaid, notifyFails := true }
    demoStore demoSession (by decide) (by decide) (by decide)
    (Or.inl ⟨{ status := .paid, paidAt := none, eurCredited := none },
      by decide, rfl⟩)

/-- An environment whose poll reports `expired` at time 1000, well before
the demo session's local expiry. -/
def envPollExpired : HandlerEnv :=
  { now := 1000, fetch := .resp 200 "OK" bodyExpired, notifyFails := false }

/-- An environment whose poll reports `paid` at time 2000, still before the
demo session's local expiry. -/
def envPollPaid : HandlerEnv :=
  { now := 2000, fetch := .resp 200 "OK" bodyPaid, notifyFails := false }

/-- Claim C1, counterexample: A pending session polled before its local expiry
can be marked `'expired'` by a provider `expired` response and then, on a
later call still before local expiry, be moved to `'paid'` by a provider
`paid` response — so an `'expired'` session does become `'paid'`. -/
theorem status_monotonic_counterexample :
    demoSession.status = .pending ∧
    (getSession "c1" (handleVerifyStatus "c1" envPollExpired demoStore).2).map
        Session.status = some .expired ∧
    (getSession "c1"
        (handleVerifyStatus "c1" envPollPaid
          (handleVerifyStatus "c1" envPollExpired demoStore).2).2).map
        Session.status = some .paid := by
  decide

/-- Iterating the verification handler over a list of environments,
threading the store. -/
def runCalls (checkoutId : String) (envs : List HandlerEnv) (st : Store) : Store :=
  envs.foldl (fun acc env => (handleVerifyStatus checkoutId env acc).2) st

theorem mockFallback_session_cases (checkoutId : String) (session : Session)
    (env : HandlerEnv) (st : Store) (s : Session)
    (hs : getSession checkoutId st = some s) :
    ∃ s', getSession checkoutId (mockFallback checkoutId session env st).2 = some s' ∧
      (s' = s ∨ s'.status = .paid) := by
  unfold mockFallback
  by_cases hr : (shouldMockPaid checkoutId session.createdAt env.now st).1
  · have hsess : lookupKey checkoutId
        (shouldMockPaid checkoutId session.createdAt env.now st).2.sessions = some s := by
      rw [shouldMockPaid_sessions]
      exact hs
    cases hn : attemptNotify env.notifyFails <;>
    · simp only [hr, if_true, hn]
      refine ⟨_, getSession_updateSessionStatus_self checkoutId .paid
        (some env.now) env.now _ s hsess, Or.inr rfl⟩
  · refine ⟨s, ?_, Or.inl rfl⟩
    simp only [hr, Bool.false_eq_true, if_false]
    show getSession checkoutId (shouldMockPaid checkoutId session.createdAt env.now st).2 =
      some s
    unfold getSession
    rw [shouldMockPaid_sessions]
    exact hs

/-- Claim C1, amended: Across verification-handler calls the status evolves
as follows: the session never disappears; a session is never moved back to
`'pending'` (when the new status is `'pending'` the record is unchanged);
and `'paid'` is absorbing — a paid session leaves the whole store untouched,
over any sequence of calls. A session whose status is `'expired'` can still
move to `'paid'` (see the counterexample); it can never return to
`'pending'`. -/
theorem handleVerifyStatus_status_transitions (checkoutId : String)
    (env : HandlerEnv) (st : Store) (s : Session)
    (hs : getSession checkoutId st = some s) :
    (∃ s', getSession checkoutId (handleVerifyStatus checkoutId env st).2 = some s' ∧
      (s'.status = .pending → s' = s) ∧
      (s.status = .expired → s'.status ≠ .pending)) ∧
    (s.status = .paid → ∀ envs, runCalls checkoutId envs st = st) := by
  have hmain : ∃ s',
      getSession checkoutId (handleVerifyStatus checkoutId env st).2 = some s' ∧
      (s' = s ∨ s'.status = .paid ∨ s'.status = .expired) := by
    unfold handleVerifyStatus
    rw [hs]
    by_cases hpaid : s.status = SessionStatus.paid
    · exact ⟨s, by simpa [hpaid] using hs, Or.inl rfl⟩
    · by_cases hexp : isSessionExpired env.now s
      · simp only [hpaid, hexp, if_false, if_true, Bool.false_eq_true]
        exact ⟨_, getSession_updateSessionStatus_self checkoutId .expired none
          env.now st s hs, Or.inr (Or.inr rfl)⟩
      · cases hcs : checkInvoiceStatus env.fetch with
        | err c m =>
          simp only [hpaid, hexp, if_false, Bool.false_eq_true]
          rcases mockFallback_session_cases checkoutId s env st s hs with ⟨s', hg, hc⟩
          exact ⟨s', hg, hc.imp id Or.inl⟩
        | ok ps =>
          by_cases hpend : ps.status = SessionStatus.pending
          · simp only [hpaid, hexp, hpend, if_true, if_false, Bool.false_eq_true]
            rcases mockFallback_session_cases checkoutId s env st s hs with ⟨s', hg, hc⟩
            exact ⟨s', hg, hc.imp id Or.inl⟩
          · by_cases hp2 : ps.status = SessionStatus.paid
            · cases hn : attemptNotify env.notifyFails <;>
              · simp only [hpaid, hexp, hpend, hp2, hn, if_true, if_false,
                  Bool.false_eq_true]
                exact ⟨_, getSession_updateSessionStatus_self checkoutId .paid _
                  env.now st s hs, Or.inr (Or.inl rfl)⟩
            · by_cases he2 : ps.status = SessionStatus.expired
              · simp only [hpaid, hexp, hpend, hp2, he2, if_true, if_false,
                  Bool.false_eq_true]
                exact ⟨_, getSession_updateSessionStatus_self checkoutId .expired none
                  env.now st s hs, Or.inr (Or.inr rfl)⟩
              · simp only [hpaid, hexp, hpend, hp2, he2, if_false, Bool.false_eq_true]
                exact ⟨s, hs, Or.inl rfl⟩
  constructor
  · rcases hmain with ⟨s', hg, hc⟩
    refine ⟨s', hg, ?_, ?_⟩
    · intro hp
      rcases hc with h | h | h
      · exact h
      · rw [hp] at h
        cases h
      · rw [hp] at h
        cases h
    · intro hexp hp
      rcases hc with h | h | h
      · rw [h] at hp
        rw [hp] at hexp
        cases hexp
      · rw [hp] at h
        cases h
      · rw [hp] at h
        cases h
  · intro hpaid envs
    have hstep : ∀ st0 s0, getSession checkoutId st0 = some s0 →
        s0.status = SessionStatus.paid → ∀ env0 : HandlerEnv,
        (handleVerifyStatus checkoutId env0 st0).2 = st0 := by
      intro st0 s0 h0 hp0 env0
      unfold handleVerifyStatus
      rw [h0]
      simp [hp0]
    induction envs with
    | nil => rfl
    | cons e es ih =>
      have h1 := hstep st s hs hpaid e
      show runCalls checkoutId es (handleVerifyStatus checkoutId e st).2 = st
      rw [h1]
      exact ih

/-- Claim C1, witness: The amended theorem instantiated on the pending demo
session with a provider `expired` poll. -/
theorem handleVerifyStatus_status_transitions_witness :
    (∃ s', getSession "c1" (handleVerifyStatus "c1" envPollExpired demoStore).2 =
        some s' ∧
      (s'.status = .pending → s' = demoSession) ∧
      (demoSession.status = .expired → s'.status ≠ .pending)) ∧
    (demoSession.status = .paid → ∀ envs, runCalls "c1" envs demoStore = demoStore) :=
  handleVerifyStatus_status_transitions "c1" envPollExpired demoStore demoSession
    (by decide)

end Bringin
